import Mathlib

/-!
Verification of the scoring-and-validation pipeline of a resume-scoring
service, shallowly embedded from the Python sources:

  * src/services/ats_analyzer.py   (Compatibility Rule Engine)
  * src/services/resume_scorer.py  (Validator/Normalizer, Orchestrator)
  * src/services/chat_service.py   (Conversational Session Manager)

Python strings are modelled as Lean String / List Char (ASCII-faithful:
the texts the theorems evaluate are ASCII, and Char.toLower / isAlpha /
isDigit agree with Python on ASCII).  Python dicts are modelled as
association lists with first-occurrence lookup; json.loads values are
modelled by the JVal type below.  Code that can raise is modelled with
Except; code that cannot is modelled by total functions.
-/

set_option maxRecDepth 4000

namespace JobMatch

/-! ## Basic Python string helpers -/
/-- Whitespace for Python str.split / str.strip / regex \s (ASCII part). -/
def pySpace (c : Char) : Bool :=
  c == ' ' || c == '\t' || c == '\n' || c == '\r' || c == '\x0b' || c == '\x0c'

/-- startsWith driven by the needle: an exhausted needle yields true
whatever remains of the haystack. -/
def beginsAux : List Char → List Char → Bool
  | [], _ => true
  | _ :: _, [] => false
  | n :: ns, h :: hs => h == n && beginsAux ns hs

/-- List-level startsWith (needle second). -/
def begins (hay nee : List Char) : Bool := beginsAux nee hay

/-- Python substring containment (the `in` operator on str). -/
def hasSub (hay nee : List Char) : Bool :=
  begins hay nee ||
    match hay with
    | [] => false
    | _ :: t => hasSub t nee

/-- Substring test on strings, as Python `pat in txt`. -/
def strHasSub (txt pat : String) : Bool := hasSub txt.data pat.data

/-- Python str.lower (ASCII). -/
def strLower (s : String) : String := ⟨s.data.map Char.toLower⟩

/-- Word counter matching len(text.split()): number of maximal nonspace runs. -/
def countWordsAux : Bool → List Char → Nat
  | _, [] => 0
  | inWord, c :: rest =>
    if pySpace c then countWordsAux false rest
    else (if inWord then 0 else 1) + countWordsAux true rest

def wordCount (t : String) : Nat := countWordsAux false t.data

/-- Python text.split(newline): split on every newline, keeping empty pieces. -/
def splitNl : List Char → List (List Char)
  | [] => [[]]
  | c :: rest =>
    if c == '\n' then [] :: splitNl rest
    else
      match splitNl rest with
      | h :: t => (c :: h) :: t
      | [] => [[c]]

/-- len(line.strip()) for a single line. -/
def stripLen (l : List Char) : Nat :=
  (((l.dropWhile pySpace).reverse.dropWhile pySpace)).length

/-- re.search for a run of at least 4 whitespace characters. -/
def hasWsRun4 : List Char → Bool
  | [] => false
  | c :: rest =>
    (match rest with
     | b :: d :: e :: _ => pySpace c && pySpace b && pySpace d && pySpace e
     | _ => false)
    || hasWsRun4 rest

/-- Join strings with a separator, as sep.join(parts). -/
def joinSep (sep : String) : List String → String
  | [] => ""
  | [x] => x
  | x :: y :: rest => x ++ sep ++ joinSep sep (y :: rest)

/-! ## Regex models (the three patterns of ats_analyzer.py)

re.search existence semantics: the functions below return true iff some
substring decomposition matches the pattern, which is equivalent to what
Python re.search reports, independently of greediness. -/
/-- Regex word character (ASCII part of \w). -/
def isWordChar (c : Char) : Bool := c.isAlphanum || c == '_'

/-- Character class [A-Za-z0-9._%+-] of the email pattern local part. -/
def emailLocalChar (c : Char) : Bool :=
  c.isAlphanum || c == '.' || c == '_' || c == '%' || c == '+' || c == '-'

/-- Character class [A-Za-z0-9.-] of the email domain part. -/
def emailDomChar (c : Char) : Bool := c.isAlphanum || c == '.' || c == '-'

/-- Character class [A-Z|a-z] of the email pattern top-level part (the
source pattern literally includes the bar character). -/
def emailTldChar (c : Char) : Bool := c.isAlpha || c == '|'

/-- Given the reversed prefix before the at-sign with its head already a
local char consumed, check that some start position yields a word
boundary.  The first argument is the current first consumed char. -/
def localFrom (cur : Char) : List Char → Bool
  | [] => isWordChar cur
  | d :: rest =>
    (isWordChar d != isWordChar cur) || (emailLocalChar d && localFrom d rest)

/-- Local part check against the reversed prefix before the at-sign. -/
def localOk : List Char → Bool
  | [] => false
  | c :: rest => emailLocalChar c && localFrom c rest

/-- After the final dot: at least two tld chars then a word boundary. -/
def tldEnd (last : Char) : List Char → Bool
  | [] => isWordChar last
  | c :: rest =>
    (isWordChar last != isWordChar c) || (emailTldChar c && tldEnd c rest)

def tldOk : List Char → Bool
  | a :: b :: rest => emailTldChar a && emailTldChar b && tldEnd b rest
  | _ => false

/-- Domain continuation: having consumed at least one domain char, either a
dot followed by a tld, or another domain char. -/
def domAfter : List Char → Bool
  | [] => false
  | c :: rest => (if c == '.' then tldOk rest else false) || (emailDomChar c && domAfter rest)

def domScan : List Char → Bool
  | [] => false
  | c :: rest => emailDomChar c && domAfter rest

def hasEmailAux : List Char → List Char → Bool
  | _, [] => false
  | revPre, c :: rest =>
    (c == '@' && localOk revPre && domScan rest) || hasEmailAux (c :: revPre) rest

/-- Model of re.search with the email pattern of _check_contact_info. -/
def hasEmail (t : String) : Bool := hasEmailAux [] t.data

/-- Consume exactly n digits, returning the remainder. -/
def takeDigits : Nat → List Char → Option (List Char)
  | 0, l => some l
  | _ + 1, [] => none
  | n + 1, c :: rest => if c.isDigit then takeDigits n rest else none

/-- Separator class [-.\s] of the phone pattern. -/
def phoneSep (c : Char) : Bool := c == '-' || c == '.' || pySpace c

/-- Final 4 digits of the phone pattern. -/
def phoneTail (l : List Char) : Bool := (takeDigits 4 l).isSome

/-- Second digit group with optional separator before the final group. -/
def phoneMid (l : List Char) : Bool :=
  match takeDigits 3 l with
  | none => false
  | some r =>
    phoneTail r ||
      match r with
      | c :: r2 => phoneSep c && phoneTail r2
      | [] => false

/-- First alternative: ddd sep? ddd sep? dddd. -/
def phoneAlt1 (l : List Char) : Bool :=
  match takeDigits 3 l with
  | none => false
  | some r =>
    phoneMid r ||
      match r with
      | c :: r2 => phoneSep c && phoneMid r2
      | [] => false

/-- Second alternative: (ddd) \s* ddd sep? dddd. -/
def phoneAlt2 (l : List Char) : Bool :=
  match l with
  | '(' :: r =>
    (match takeDigits 3 r with
     | none => false
     | some r2 =>
       match r2 with
       | ')' :: r3 => phoneMid (r3.dropWhile pySpace)
       | _ => false)
  | _ => false

def hasPhoneAux : List Char → Bool
  | [] => false
  | c :: rest => phoneAlt1 (c :: rest) || phoneAlt2 (c :: rest) || hasPhoneAux rest

/-- Model of re.search with the phone pattern of _check_contact_info. -/
def hasPhone (t : String) : Bool := hasPhoneAux t.data

/-- After the two leading year digits: two digits then a word boundary. -/
def yearAt : List Char → Bool
  | c1 :: c2 :: c3 :: c4 :: rest =>
    ((c1 == '1' && c2 == '9') || (c1 == '2' && c2 == '0'))
      && c3.isDigit && c4.isDigit
      && (match rest with
          | [] => true
          | d :: _ => !isWordChar d)
  | _ => false

def yearScan (prevWord : Bool) : List Char → Bool
  | [] => false
  | c :: rest =>
    (!prevWord && yearAt (c :: rest)) || yearScan (isWordChar c) rest

/-- Model of re.findall nonemptiness for the year pattern of
_check_file_structure (a 19xx or 20xx token with word boundaries). -/
def hasYear (t : String) : Bool := yearScan false t.data

/-! ## Compatibility Rule Engine (ats_analyzer.py) -/
structure CompatReport where
  ats_score : Int
  ats_issues : List String
  ats_recommendations : List String
  deriving Repr, DecidableEq

structure ATSState where
  score : Int
  issues : List String
  recs : List String
  deriving Repr, DecidableEq

/-- _deduct_points: subtract points and append one issue/recommendation pair. -/
def deduct (st : ATSState) (p : Int) (i r : String) : ATSState :=
  ⟨st.score - p, st.issues ++ [i], st.recs ++ [r]⟩

/-- _add_bonus: add points, touching no issue list. -/
def addBonus (st : ATSState) (p : Int) : ATSState :=
  ⟨st.score + p, st.issues, st.recs⟩

/-- STANDARD_SECTIONS, in the order the source set literal is written. -/
def standardSections : List String :=
  ["experience", "work experience", "employment", "professional experience",
   "education", "academic background",
   "skills", "technical skills", "core competencies",
   "summary", "professional summary", "objective",
   "certifications", "certificates",
   "projects", "portfolio"]

/-- PROBLEMATIC_CHARS. -/
def problematicChars : List Char :=
  ['★', '●', '◆', '■', '▪', '→', '►', '✓', '✔', '•']

/-- Action verb list of _check_file_structure. -/
def actionVerbs : List String :=
  ["led", "managed", "developed", "created", "implemented", "designed",
   "analyzed", "improved", "increased", "reduced", "built", "launched"]

def checkLength (t : String) (st : ATSState) : ATSState :=
  let wc := wordCount t
  if wc < 100 then
    deduct st 20 "Resume is too short (less than 100 words)"
      "Add more detail about your experience, skills, and achievements. Aim for 300-800 words."
  else if wc > 1500 then
    deduct st 5 "Resume is very long (over 1500 words)"
      "Consider condensing content. Most ATS and recruiters prefer resumes under 800 words."
  else st

/-- Problematic characters present in the text, in PROBLEMATIC_CHARS order.
The source accumulates them in a Python set whose iteration order for the
join below is unspecified; no theorem depends on that order. -/
def foundSpecials (t : String) : List Char :=
  problematicChars.filter (fun c => t.data.contains c)

def checkSpecialChars (t : String) (st : ATSState) : ATSState :=
  let fc := foundSpecials t
  if fc.isEmpty then st
  else
    deduct st 5
      ("Special characters detected: " ++ joinSep ", " (fc.map Char.toString))
      "Replace special bullet points and symbols with standard characters (-, *, •) or simple text."

def hasExperienceHdr (t : String) : Bool :=
  strHasSub (strLower t) "experience" || strHasSub (strLower t) "employment"
    || strHasSub (strLower t) "work history"

def checkSectionHeaders (t : String) (st : ATSState) : ATSState :=
  let st := if !hasExperienceHdr t then
      deduct st 10 "Missing standard 'Experience' or 'Work History' section"
        "Add a clear 'Work Experience' or 'Professional Experience' section header."
    else st
  let st := if !strHasSub (strLower t) "education" then
      deduct st 5 "Missing 'Education' section"
        "Add an 'Education' section even if it's brief. ATS often looks for this."
    else st
  if !strHasSub (strLower t) "skills" then
    deduct st 10 "Missing 'Skills' section"
      "Add a dedicated 'Skills' or 'Technical Skills' section with relevant keywords."
  else st

def checkContactInfo (t : String) (st : ATSState) : ATSState :=
  let st := if !hasEmail t then
      deduct st 15 "No email address detected"
        "Include a professional email address at the top of your resume."
    else addBonus st 5
  if !hasPhone t then
    deduct st 5 "No phone number detected"
      "Include a phone number in your contact information."
  else st

/-- The more-than-30-percent-short-lines test of _check_formatting_indicators.
The source compares against len(lines) * 0.3 in floating point; this model
uses the exact rational 3/10.  The two differ only when the count of short
lines is within one unit of len(lines) * 0.3 and 3 * len(lines) is a
multiple of 10; no theorem below sits in that window. -/
def manyShortLines (t : String) : Bool :=
  let lines := splitNl t.data
  let vs := (lines.filter (fun l => decide (0 < stripLen l) && decide (stripLen l < 20))).length
  decide (10 * vs > 3 * lines.length)

def checkFormatting (t : String) (st : ATSState) : ATSState :=
  let st := if hasWsRun4 t.data then
      deduct st 10 "Detected potential tables or complex spacing"
        "Avoid tables and multi-column layouts. Use simple, single-column text with bullet points."
    else st
  if manyShortLines t then
    deduct st 5 "Many short lines detected (possible multi-column layout)"
      "Use a single-column format. Multi-column resumes are hard for ATS to parse correctly."
  else st

def verbsFound (t : String) : Nat :=
  (actionVerbs.filter (fun v => strHasSub (strLower t) v)).length

def checkFileStructure (t : String) (st : ATSState) : ATSState :=
  let st := if !hasYear t then
      deduct st 5 "No dates found in resume"
        "Include dates for your work experience and education (e.g., 'Jan 2020 - Present')."
    else st
  if verbsFound t ≥ 3 then addBonus st 5 else st

def sectionsFound (t : String) : Nat :=
  (standardSections.filter (fun s => strHasSub (strLower t) s)).length

def hasBullets (t : String) : Bool :=
  t.data.contains '•' || t.data.contains '-' || t.data.contains '*'

def checkStandardSections (t : String) (st : ATSState) : ATSState :=
  let st := if sectionsFound t ≥ 4 then addBonus st 10
    else if sectionsFound t ≥ 3 then addBonus st 5
    else st
  if hasBullets t then addBonus st 5 else st

/-- ATSAnalyzer.analyze: run the checks in source order from a fresh state
of score 100, then clamp the score into [0,100]. -/
def analyze (t : String) : CompatReport :=
  let st : ATSState := ⟨100, [], []⟩
  let st := checkLength t st
  let st := checkSpecialChars t st
  let st := checkSectionHeaders t st
  let st := checkContactInfo t st
  let st := checkFormatting t st
  let st := checkFileStructure t st
  let st := checkStandardSections t st
  ⟨max 0 (min 100 st.score), st.issues, st.recs⟩

/-! ### Claim C4: the 50-word scenario -/
/-- Standard-sections bonus as applied by _check_standard_sections. -/
def secBonus (t : String) : Int :=
  if sectionsFound t ≥ 4 then 10 else if sectionsFound t ≥ 3 then 5 else 0

/-- Action-verb bonus as applied by _check_file_structure. -/
def verbBonus (t : String) : Int := if verbsFound t ≥ 3 then 5 else 0

/-- Bullet-character bonus as applied by _check_standard_sections. -/
def bulletBonus (t : String) : Int := if hasBullets t then 5 else 0

/-- A 50-word text with no email, phone or date, that triggers none of the
other deduction rules; it contains the substrings experience, education and
skills, so it collects the standard-sections bonus. -/
def exText : String :=
  "this resume covers my experience in various roles over the years i have grown within teams my education includes a degree plus many courses my skills include writing planning speaking and listening i enjoy helping others and learning new things each role gave me room to move forward thank you"

/-! ## JSON value model (the shapes json.loads can return)

Python bool is a subclass of int: isinstance(True, int) holds and True
compares equal to 1, so the isInt view below maps booleans to 0/1 exactly
as the isinstance checks of the source do.  Floats are kept abstract as
rationals; isinstance(float, int) is false, which is all the validator
observes about them. -/
inductive JVal where
  | jnull : JVal
  | jbool : Bool → JVal
  | jint : Int → JVal
  | jnum : Rat → JVal
  | jstr : String → JVal
  | jlist : List JVal → JVal
  | jobj : List (String × JVal) → JVal

/-- Python isinstance(v, int) view (booleans qualify, floats do not). -/
def isInt : JVal → Option Int
  | .jbool b => some (if b then 1 else 0)
  | .jint n => some n
  | _ => none

/-- isinstance(v, int) and 0 <= v <= 100, the validity test the validator
applies to every numeric field. -/
def intOk (v : JVal) : Bool :=
  match isInt v with
  | some k => decide (0 ≤ k) && decide (k ≤ 100)
  | none => false

/-- Python truthiness for JSON-shaped values. -/
def pyTruthy : JVal → Bool
  | .jnull => false
  | .jbool b => b
  | .jint n => !(n == 0)
  | .jnum q => !(q == 0)
  | .jstr s => !s.data.isEmpty
  | .jlist xs => !xs.isEmpty
  | .jobj fs => !fs.isEmpty

/-- Dict lookup with first-occurrence semantics. -/
def lookupKey : List (String × JVal) → String → Option JVal
  | [], _ => none
  | (k, v) :: rest, key => if k == key then some v else lookupKey rest key

/-- Python dict.get(key, default). -/
def getD (m : List (String × JVal)) (key : String) (d : JVal) : JVal :=
  (lookupKey m key).getD d

/-- Python dict item assignment: replace the first occurrence or append. -/
def setKey : List (String × JVal) → String → JVal → List (String × JVal)
  | [], key, v => [(key, v)]
  | (k, w) :: rest, key, v =>
    if k == key then (k, v) :: rest else (k, w) :: setKey rest key v

/-- Python dict.update: assign every pair of the second dict in order. -/
def pyUpdate (m kvs : List (String × JVal)) : List (String × JVal) :=
  kvs.foldl (fun acc p => setKey acc p.1 p.2) m

/-! ## Assessment Validator/Normalizer (_validate_and_normalize_result) -/
/-- The required section keys, in source order. -/
def requiredSections : List String := ["skills", "experience", "clarity", "keywords"]

/-- One iteration of the section loop: a missing key is inserted with the
(possibly defaulted) overall score, an invalid value is replaced by it, a
valid value is kept. -/
def fixSection (overallV : JVal) (fs : List (String × JVal)) (k : String) :
    List (String × JVal) :=
  match lookupKey fs k with
  | none => setKey fs k overallV
  | some v => if intOk v then fs else setKey fs k overallV

/-- overall_score after validation: result.get(overall_score, 0), kept when
isinstance-int and in range (note the get default 0 is itself valid, so an
absent key yields 0, not 50), otherwise 50. -/
def overallOf (result : List (String × JVal)) : JVal :=
  let ov := getD result "overall_score" (.jint 0)
  if intOk ov then ov else .jint 50

/-- A list field defaulted to [], coerced to [] when not a list, truncated. -/
def listOf (result : List (String × JVal)) (key : String) (n : Nat) : List JVal :=
  match getD result key (.jlist []) with
  | .jlist xs => xs.take n
  | _ => []

/-- A list field defaulted to [] and coerced, with no truncation. -/
def rawListOf (result : List (String × JVal)) (key : String) : List JVal :=
  match getD result key (.jlist []) with
  | .jlist xs => xs
  | _ => []

/-- job_match_score: kept only when present, isinstance-int and in range. -/
def jobOf (result : List (String × JVal)) : Option JVal :=
  match getD result "job_match_score" .jnull with
  | .jnull => none
  | v => if intOk v then some v else none

/-- missing_keywords: kept only when present and a list, truncated to 10. -/
def mkOf (result : List (String × JVal)) : Option (List JVal) :=
  match getD result "missing_keywords" .jnull with
  | .jnull => none
  | .jlist xs => some (xs.take 10)
  | _ => none

/-- ats_score: defaulted to 75 when absent or invalid. -/
def atsScoreOf (result : List (String × JVal)) : JVal :=
  let v := getD result "ats_score" (.jint 75)
  if intOk v then v else .jint 75

/-- The dict _validate_and_normalize_result returns once past the section
loop, with fields in the construction order of the source. -/
def vnBody (result : List (String × JVal)) (fs0 : List (String × JVal)) :
    List (String × JVal) :=
  [("overall_score", overallOf result),
   ("section_scores", .jobj (requiredSections.foldl (fixSection (overallOf result)) fs0)),
   ("strengths", .jlist (listOf result "strengths" 5)),
   ("weaknesses", .jlist (listOf result "weaknesses" 5)),
   ("recommendations", .jlist (listOf result "recommendations" 7)),
   ("ats_score", atsScoreOf result),
   ("ats_issues", .jlist (rawListOf result "ats_issues")),
   ("ats_recommendations", .jlist (rawListOf result "ats_recommendations"))]
  ++ (match jobOf result with | some v => [("job_match_score", v)] | none => [])
  ++ (match mkOf result with | some xs => [("missing_keywords", .jlist xs)] | none => [])

/-- _validate_and_normalize_result.  The error marks exactly the place the
Python function raises: the membership test / item assignment of the
section loop on a section_scores value that is not a dict (for every
non-dict value some statement of that loop raises TypeError). -/
def validateNorm (result : List (String × JVal)) :
    Except String (List (String × JVal)) :=
  match getD result "section_scores" (.jobj []) with
  | .jobj fs0 => .ok (vnBody result fs0)
  | _ => .error "TypeError: section_scores is not a mapping"

/-- The ats fragment as the dict returned by analyze_ats_compatibility. -/
def atsDict (rep : CompatReport) : List (String × JVal) :=
  [("ats_score", .jint rep.ats_score),
   ("ats_issues", .jlist (rep.ats_issues.map .jstr)),
   ("ats_recommendations", .jlist (rep.ats_recommendations.map .jstr))]

/-- The merge-and-validate step of score_resume: result.update(ats_results)
followed by _validate_and_normalize_result. -/
def validate (raw : List (String × JVal)) (rep : CompatReport) :
    Except String (List (String × JVal)) :=
  validateNorm (pyUpdate raw (atsDict rep))

/-- Validity of one required section key. -/
def sKeyOk (fs : List (String × JVal)) (k : String) : Bool :=
  match lookupKey fs k with
  | some v => intOk v
  | none => false

/-- All four required section keys present and valid. -/
def sectionOkB (fs : List (String × JVal)) : Bool :=
  requiredSections.all (sKeyOk fs)

/-- Assessment invariants of the spec data model, observed through the
returned dict (the job-match pair may appear independently — the
documented relaxation; extra keys inside section_scores are not excluded
since the source keeps them). -/
def wellFormedB (d : List (String × JVal)) : Bool :=
  (match lookupKey d "overall_score" with | some v => intOk v | none => false)
  && (match lookupKey d "section_scores" with
      | some (.jobj fs) => sectionOkB fs
      | _ => false)
  && (match lookupKey d "strengths" with
      | some (.jlist l) => decide (l.length ≤ 5)
      | _ => false)
  && (match lookupKey d "weaknesses" with
      | some (.jlist l) => decide (l.length ≤ 5)
      | _ => false)
  && (match lookupKey d "recommendations" with
      | some (.jlist l) => decide (l.length ≤ 7)
      | _ => false)
  && (match lookupKey d "ats_score" with | some v => intOk v | none => false)
  && (match lookupKey d "ats_issues" with | some (.jlist _) => true | _ => false)
  && (match lookupKey d "ats_recommendations" with | some (.jlist _) => true | _ => false)
  && (match lookupKey d "job_match_score" with
      | none => true
      | some v => intOk v)
  && (match lookupKey d "missing_keywords" with
      | none => true
      | some (.jlist l) => decide (l.length ≤ 10)
      | some _ => false)

/-- A text the Rule Engine scores 100 with empty issue lists. -/
def goodText : String :=
  "experience education skills a@b.co 555 123 4567 2020 " ++ String.join (List.replicate 95 "ok ")

/-- The Assessment the merge-and-validate step returns for an empty raw
payload and the goodText report. -/
def dGood : List (String × JVal) :=
  [("overall_score", .jint 0),
   ("section_scores", .jobj [("skills", .jint 0), ("experience", .jint 0),
                             ("clarity", .jint 0), ("keywords", .jint 0)]),
   ("strengths", .jlist []), ("weaknesses", .jlist []), ("recommendations", .jlist []),
   ("ats_score", .jint 100), ("ats_issues", .jlist []), ("ats_recommendations", .jlist [])]

/-! ## Assessment Orchestrator (score_resume) -/
/-- Python str.strip(). -/
def pyStrip (s : String) : String :=
  ⟨((s.data.dropWhile pySpace).reverse.dropWhile pySpace).reverse⟩

def strBegins (s pre : String) : Bool := begins s.data pre.data

def strEnds (s suf : String) : Bool := begins s.data.reverse suf.data.reverse

/-- Character slice content_clean[n:]. -/
def strDropLeft (s : String) (n : Nat) : String := ⟨s.data.drop n⟩

/-- Character slice content_clean[:-n]. -/
def strDropRight (s : String) (n : Nat) : String := ⟨s.data.take (s.data.length - n)⟩

/-- The markdown fence stripping of score_resume before json.loads. -/
def stripFences (content : String) : String :=
  let c := pyStrip content
  let c := if strBegins c "```json" then strDropLeft c 7 else c
  let c := if strBegins c "```" then strDropLeft c 3 else c
  let c := if strEnds c "```" then strDropRight c 3 else c
  pyStrip c

/-- any(char.isdigit() for char in resume_text). -/
def anyDigit (t : String) : Bool := t.data.any Char.isDigit

/-- The fallback base score: 60, +10 for more than 200 words, +10 for any
digit character. -/
def fallbackBase (t : String) : Int :=
  60 + (if wordCount t > 200 then 10 else 0) + (if anyDigit t then 10 else 0)

/-- _create_fallback_response.  The source guards its fresh ATS run with a
try/except substituting score 70; analyze is total, so that branch is
dead and the fresh report is always used. -/
def createFallbackResponse (t : String) : List (String × JVal) :=
  let base := fallbackBase t
  let ats := analyze t
  [("overall_score", .jint base),
   ("section_scores", .jobj [("skills", .jint base), ("experience", .jint base),
                             ("clarity", .jint base), ("keywords", .jint base)]),
   ("ats_score", .jint ats.ats_score),
   ("ats_issues", .jlist (ats.ats_issues.map .jstr)),
   ("ats_recommendations", .jlist (ats.ats_recommendations.map .jstr)),
   ("strengths", .jlist [.jstr "Resume content extracted successfully"]),
   ("weaknesses", .jlist [.jstr "Detailed analysis unavailable - please try again"]),
   ("recommendations", .jlist
     [.jstr "Ensure resume includes clear section headers",
      .jstr "Add quantifiable achievements with metrics",
      .jstr "Use industry-standard terminology"])]

/-- score_resume.  The external call outcome is the llm argument; json.loads
is the collaborator jparse (None models json.JSONDecodeError, the only
error the inner try catches).  A transport error propagates through the
outer re-raise; a parse failure takes the fallback path and also merges
the ats results; a payload that parses to a non-dict makes result.update
raise outside the inner handler, so it propagates too. -/
def scoreResume (resume_text : String) (jparse : String → Option JVal)
    (llm : Except String String) : Except String (List (String × JVal)) :=
  let ats := analyze resume_text
  match llm with
  | .error e => .error e
  | .ok content =>
    match jparse (stripFences content) with
    | none => .ok (pyUpdate (createFallbackResponse resume_text) (atsDict ats))
    | some (.jobj fs) => validateNorm (pyUpdate fs (atsDict ats))
    | some _ => .error "AttributeError: payload is not a dict"

/-! ## Conversational Session Manager (chat_service.py)

Sessions are modelled as a history of (user, assistant) turn pairs plus
the anchored analysis dict; the chain and memory objects of the source
are determined by these.  The external capability outcome for one turn is
the llm argument; buildResumeContext may itself raise on malformed
analysis dicts, and chat catches every error of the turn body. -/
structure ChatSession where
  history : List (String × String)
  analysis : List (String × JVal)

def lookupSession : List (String × ChatSession) → String → Option ChatSession
  | [], _ => none
  | (k, s) :: rest, key => if k == key then some s else lookupSession rest key

def setSession : List (String × ChatSession) → String → ChatSession →
    List (String × ChatSession)
  | [], key, s => [(key, s)]
  | (k, t) :: rest, key, s =>
    if k == key then (k, s) :: rest else (k, t) :: setSession rest key s

/-- get_or_create_session: an unseen id appends a fresh session anchored to
the given analysis; a seen id returns the stored session untouched. -/
def getOrCreateSession (m : List (String × ChatSession)) (sid : String)
    (analysis : List (String × JVal)) : ChatSession × List (String × ChatSession) :=
  match lookupSession m sid with
  | some s => (s, m)
  | none => (⟨[], analysis⟩, m ++ [(sid, ⟨[], analysis⟩)])

def eraseSession : List (String × ChatSession) → String → List (String × ChatSession)
  | [], _ => []
  | (k, s) :: rest, key => if k == key then rest else (k, s) :: eraseSession rest key

/-- clear_session: delete the entry when present, otherwise do nothing. -/
def clearSession (m : List (String × ChatSession)) (sid : String) :
    List (String × ChatSession) :=
  match lookupSession m sid with
  | none => m
  | some _ => eraseSession m sid

/-! ### Rendering (str(), repr(), str.title()) -/
mutual

/-- Python str() of a JSON-shaped value (ASCII; float rendering is
approximated through the rational, which no theorem inspects). -/
def pyStr : JVal → String
  | .jnull => "None"
  | .jbool b => if b then "True" else "False"
  | .jint n => toString n
  | .jnum q => toString q
  | .jstr s => s
  | .jlist xs => "[" ++ pyReprSeq xs ++ "]"
  | .jobj fs => "\x7b" ++ pyReprItems fs ++ "\x7d"

/-- Python repr(), as used for elements inside containers. -/
def pyRepr : JVal → String
  | .jnull => "None"
  | .jbool b => if b then "True" else "False"
  | .jint n => toString n
  | .jnum q => toString q
  | .jstr s => "'" ++ s ++ "'"
  | .jlist xs => "[" ++ pyReprSeq xs ++ "]"
  | .jobj fs => "\x7b" ++ pyReprItems fs ++ "\x7d"

def pyReprSeq : List JVal → String
  | [] => ""
  | [x] => pyRepr x
  | x :: y :: rest => pyRepr x ++ ", " ++ pyReprSeq (y :: rest)

def pyReprItems : List (String × JVal) → String
  | [] => ""
  | [(k, v)] => "'" ++ k ++ "': " ++ pyRepr v
  | (k, v) :: p :: rest => "'" ++ k ++ "': " ++ pyRepr v ++ ", " ++ pyReprItems (p :: rest)

end

/-- Python str.title() (ASCII: a letter is uppercased after a non-letter,
lowercased after a letter). -/
def pyTitleAux (prevAlpha : Bool) : List Char → List Char
  | [] => []
  | c :: rest =>
    if c.isAlpha then
      (if prevAlpha then c.toLower else c.toUpper) :: pyTitleAux true rest
    else c :: pyTitleAux false rest

def pyTitle (s : String) : List Char := pyTitleAux false s.data

/-- Python len() for the values the context builder meets (str, list and
dict have a length; every other value makes len raise). -/
def pyLen : JVal → Option Nat
  | .jstr s => some s.data.length
  | .jlist xs => some xs.length
  | .jobj fs => some fs.length
  | _ => none

/-- value[:3], then the elements the for loop would see: list elements, or
the one-character strings of a sliced str; slicing anything else raises. -/
def pySlice3 : JVal → Option (List JVal)
  | .jlist xs => some (xs.take 3)
  | .jstr s => some ((s.data.take 3).map fun c => .jstr (String.singleton c))
  | _ => none

/-! ### Context construction (_build_resume_context)

Parts are built as character lists; the final context string joins them
with a newline.  The chunk functions below mirror the sequential appends
of the source. -/
def overLine (analysis : List (String × JVal)) : List Char :=
  "Overall Score: ".data ++ (pyStr (getD analysis "overall_score" (.jstr "N/A"))).data
    ++ "/100".data

def atsLine (analysis : List (String × JVal)) : List Char :=
  "ATS Score: ".data ++ (pyStr (getD analysis "ats_score" (.jstr "N/A"))).data
    ++ "/100".data

/-- The job-match line, appended only when analysis.get(job_match_score)
is truthy (so a stored 0 is suppressed). -/
def jobChunk (analysis : List (String × JVal)) : List (List Char) :=
  if pyTruthy (getD analysis "job_match_score" .jnull) then
    ["Job Match Score: ".data ++ (pyStr (getD analysis "job_match_score" .jnull)).data
      ++ "%".data]
  else []

/-- The section-scores block: key membership is tested, then items() of the
value is iterated, which raises on a non-dict value. -/
def secChunk (analysis : List (String × JVal)) : Except String (List (List Char)) :=
  match lookupKey analysis "section_scores" with
  | none => .ok []
  | some (.jobj fs) =>
    .ok ("\nSection Scores:".data ::
      fs.map fun p => "  - ".data ++ pyTitle p.1 ++ ": ".data ++ (pyStr p.2).data
        ++ "/100".data)
  | some _ => .error "AttributeError: items on a non-dict"

/-- A strengths/weaknesses/recommendations block: guarded by truthiness,
headed by a label with the full length, listing the first three items. -/
def listChunk (analysis : List (String × JVal)) (key label : String) :
    Except String (List (List Char)) :=
  let v := getD analysis key .jnull
  if pyTruthy v then
    match pyLen v with
    | none => .error "TypeError: len of this value"
    | some n =>
      match pySlice3 v with
      | none => .error "TypeError: not sliceable"
      | some items =>
        .ok (("\n".data ++ label.data ++ " (".data ++ (toString n).data ++ "):".data)
          :: items.map fun it => "  - ".data ++ (pyStr it).data)
  else .ok []

def buildContextParts (analysis : List (String × JVal)) :
    Except String (List (List Char)) := do
  let sec ← secChunk analysis
  let st ← listChunk analysis "strengths" "Strengths"
  let wk ← listChunk analysis "weaknesses" "Weaknesses"
  let rc ← listChunk analysis "recommendations" "Recommendations"
  return [overLine analysis, atsLine analysis] ++ jobChunk analysis ++ sec ++ st ++ wk ++ rc

def joinNlChars : List (List Char) → List Char
  | [] => []
  | [x] => x
  | x :: y :: rest => x ++ '\n' :: joinNlChars (y :: rest)

/-- _build_resume_context. -/
def buildResumeContext (analysis : List (String × JVal)) : Except String String :=
  (buildContextParts analysis).map fun parts => ⟨joinNlChars parts⟩

/-! ### Chat turns -/
/-- The canned apology of the source, identical in chat and chat_stream. -/
def apologyText : String :=
  "I apologize, but I encountered an error processing your question. Please try rephrasing or ask something else about your resume analysis."

/-- chat: one non-streaming turn.  Any error in the body (context
construction or the external call) yields the apology; a successful turn
returns the reply verbatim and appends the turn pair to the memory. -/
def chatResult (m : List (String × ChatSession)) (sid msg : String)
    (analysis : List (String × JVal)) (llm : Except String String) :
    String × List (String × ChatSession) :=
  let pr := getOrCreateSession m sid analysis
  match buildResumeContext pr.1.analysis with
  | .error _ => (apologyText, pr.2)
  | .ok _ =>
    match llm with
    | .error _ => (apologyText, pr.2)
    | .ok reply =>
      (reply, setSession pr.2 sid ⟨pr.1.history ++ [(msg, reply)], pr.1.analysis⟩)

mutual

/-- The simulated streaming re-segmentation re.findall(nonspace-run plus
trailing whitespace, response): tokens with their trailing whitespace. -/
def pyTokens : List Char → List (List Char)
  | [] => []
  | c :: rest => if pySpace c then pyTokens rest else grabTok [c] rest

def grabTok (acc : List Char) : List Char → List (List Char)
  | [] => [acc.reverse]
  | c :: rest => if pySpace c then grabSp (c :: acc) rest else grabTok (c :: acc) rest

def grabSp (acc : List Char) : List Char → List (List Char)
  | [] => [acc.reverse]
  | c :: rest => if pySpace c then grabSp (c :: acc) rest else acc.reverse :: grabTok [c] rest

end

/-- chat_stream: the same turn, the complete reply re-segmented into
chunks; any error yields the single apology chunk. -/
def chatStream (m : List (String × ChatSession)) (sid msg : String)
    (analysis : List (String × JVal)) (llm : Except String String) :
    List (List Char) × List (String × ChatSession) :=
  let pr := getOrCreateSession m sid analysis
  match buildResumeContext pr.1.analysis with
  | .error _ => ([apologyText.data], pr.2)
  | .ok _ =>
    match llm with
    | .error _ => ([apologyText.data], pr.2)
    | .ok reply =>
      (pyTokens reply.data, setSession pr.2 sid ⟨pr.1.history ++ [(msg, reply)], pr.1.analysis⟩)

def joinAll : List (List Char) → List Char
  | [] => []
  | x :: rest => x ++ joinAll rest

/-- A concrete two-session map for the clear_session witness. -/
def mapW : List (String × ChatSession) :=
  [("a", ⟨[], []⟩), ("b", ⟨[("hi", "there")], [("overall_score", .jint 3)]⟩)]

/-! ### Claim C9: which lines the rendered context contains -/
def overNeedle : List Char := "Overall Score: ".data

def atsNeedle : List Char := "ATS Score: ".data

def jobNeedle : List Char := "Job Match Score: ".data

/-- A well-formed snapshot whose job_match_score is the valid score 0. -/
def snapshotW : List (String × JVal) :=
  [("overall_score", .jint 80),
   ("section_scores", .jobj [("skills", .jint 70), ("experience", .jint 75),
                             ("clarity", .jint 60), ("keywords", .jint 65)]),
   ("strengths", .jlist [.jstr "clear layout"]),
   ("weaknesses", .jlist []),
   ("recommendations", .jlist []),
   ("ats_score", .jint 90), ("ats_issues", .jlist []), ("ats_recommendations", .jlist []),
   ("job_match_score", .jint 0)]

/-! ## Rule Engine invariants (claims C3, C4) -/
theorem deduct_paired (st : ATSState) (p : Int) (i r : String)
    (h : st.issues.length = st.recs.length) :
    (deduct st p i r).issues.length = (deduct st p i r).recs.length := by
  simp [deduct, h]

theorem addBonus_paired (st : ATSState) (p : Int)
    (h : st.issues.length = st.recs.length) :
    (addBonus st p).issues.length = (addBonus st p).recs.length := by
  simpa [addBonus] using h

theorem checkLength_paired (t : String) (st : ATSState)
    (h : st.issues.length = st.recs.length) :
    (checkLength t st).issues.length = (checkLength t st).recs.length := by
  simp only [checkLength]
  split_ifs <;> simp [deduct, h]

theorem checkSpecialChars_paired (t : String) (st : ATSState)
    (h : st.issues.length = st.recs.length) :
    (checkSpecialChars t st).issues.length = (checkSpecialChars t st).recs.length := by
  simp only [checkSpecialChars]
  split_ifs <;> simp [deduct, h]

theorem checkSectionHeaders_paired (t : String) (st : ATSState)
    (h : st.issues.length = st.recs.length) :
    (checkSectionHeaders t st).issues.length = (checkSectionHeaders t st).recs.length := by
  simp only [checkSectionHeaders]
  split_ifs <;> simp [deduct, h]

theorem checkContactInfo_paired (t : String) (st : ATSState)
    (h : st.issues.length = st.recs.length) :
    (checkContactInfo t st).issues.length = (checkContactInfo t st).recs.length := by
  simp only [checkContactInfo]
  split_ifs <;> simp [deduct, addBonus, h]

theorem checkFormatting_paired (t : String) (st : ATSState)
    (h : st.issues.length = st.recs.length) :
    (checkFormatting t st).issues.length = (checkFormatting t st).recs.length := by
  simp only [checkFormatting]
  split_ifs <;> simp [deduct, h]

theorem checkFileStructure_paired (t : String) (st : ATSState)
    (h : st.issues.length = st.recs.length) :
    (checkFileStructure t st).issues.length = (checkFileStructure t st).recs.length := by
  simp only [checkFileStructure]
  split_ifs <;> simp [deduct, addBonus, h]

theorem checkStandardSections_paired (t : String) (st : ATSState)
    (h : st.issues.length = st.recs.length) :
    (checkStandardSections t st).issues.length = (checkStandardSections t st).recs.length := by
  simp only [checkStandardSections]
  split_ifs <;> simp [addBonus, h]

/-- Helper: the clamped final score is within [0,100]. -/
theorem analyze_score_bounds (t : String) :
    0 ≤ (analyze t).ats_score ∧ (analyze t).ats_score ≤ 100 := by
  unfold analyze
  refine ⟨le_max_left 0 _, max_le (by norm_num) (min_le_left _ _)⟩

/-- Helper: issues and recommendations stay index-aligned. -/
theorem analyze_paired (t : String) :
    (analyze t).ats_issues.length = (analyze t).ats_recommendations.length := by
  unfold analyze
  exact checkStandardSections_paired t _ (checkFileStructure_paired t _
    (checkFormatting_paired t _ (checkContactInfo_paired t _
      (checkSectionHeaders_paired t _ (checkSpecialChars_paired t _
        (checkLength_paired t _ rfl))))))

/-- C3: for every input string (analyze is a total Lean function, so it
returns without raising), the report score lies in [0,100] and the issues
and recommendations sequences have equal length. -/
theorem analyze_score_range_and_alignment (t : String) :
    0 ≤ (analyze t).ats_score ∧ (analyze t).ats_score ≤ 100 ∧
      (analyze t).ats_issues.length = (analyze t).ats_recommendations.length :=
  ⟨(analyze_score_bounds t).1, (analyze_score_bounds t).2, analyze_paired t⟩

/-- C4 (amended): for every text of 50 words with no email, phone or date
match that triggers no other deduction rule, analyze returns
55 plus the applicable bonuses (standard-section vocabulary, action verbs,
bullet characters) rather than a flat 55, and the issues list has exactly
the four expected entries. -/
theorem analyze_fifty_words (t : String)
    (h1 : wordCount t = 50)
    (h2 : foundSpecials t = [])
    (h3 : hasExperienceHdr t = true)
    (h4 : strHasSub (strLower t) "education" = true)
    (h5 : strHasSub (strLower t) "skills" = true)
    (h6 : hasEmail t = false)
    (h7 : hasPhone t = false)
    (h8 : hasWsRun4 t.data = false)
    (h9 : manyShortLines t = false)
    (h10 : hasYear t = false) :
    (analyze t).ats_score = 55 + secBonus t + verbBonus t + bulletBonus t ∧
    (analyze t).ats_issues =
      ["Resume is too short (less than 100 words)",
       "No email address detected",
       "No phone number detected",
       "No dates found in resume"] ∧
    (analyze t).ats_recommendations =
      ["Add more detail about your experience, skills, and achievements. Aim for 300-800 words.",
       "Include a professional email address at the top of your resume.",
       "Include a phone number in your contact information.",
       "Include dates for your work experience and education (e.g., 'Jan 2020 - Present')."] := by
  refine ⟨?_, ?_, ?_⟩ <;>
  · simp only [analyze, checkLength, checkSpecialChars, checkSectionHeaders, checkContactInfo,
      checkFormatting, checkFileStructure, checkStandardSections,
      h1, h2, h3, h4, h5, h6, h7, h8, h9, h10]
    by_cases hs4 : sectionsFound t ≥ 4 <;> by_cases hs3 : sectionsFound t ≥ 3 <;>
      by_cases hv : verbsFound t ≥ 3 <;> by_cases hb : hasBullets t = true <;>
      simp [deduct, addBonus, secBonus, verbBonus, bulletBonus, hs4, hs3, hv, hb]

set_option maxRecDepth 100000 in
/-- C4 counterexample: exText satisfies every hypothesis of the claim (50
words, no email, no phone, no dates, no other deduction triggered, exactly
4 issues), yet its score is 60, not the claimed 55, because the
standard-sections bonus applies. -/
theorem fifty_words_not_fiftyfive :
    wordCount exText = 50 ∧ hasEmail exText = false ∧ hasPhone exText = false ∧
    hasYear exText = false ∧ foundSpecials exText = [] ∧
    hasExperienceHdr exText = true ∧ strHasSub (strLower exText) "education" = true ∧
    strHasSub (strLower exText) "skills" = true ∧ hasWsRun4 exText.data = false ∧
    manyShortLines exText = false ∧
    (analyze exText).ats_issues.length = 4 ∧
    (analyze exText).ats_score = 60 ∧ ¬(analyze exText).ats_score = 55 := by
  decide

set_option maxRecDepth 100000 in
/-- Witness for analyze_fifty_words at the concrete text exText. -/
theorem analyze_fifty_words_witness :
    (analyze exText).ats_score = 55 + secBonus exText + verbBonus exText + bulletBonus exText ∧
    (analyze exText).ats_issues =
      ["Resume is too short (less than 100 words)",
       "No email address detected",
       "No phone number detected",
       "No dates found in resume"] ∧
    (analyze exText).ats_recommendations =
      ["Add more detail about your experience, skills, and achievements. Aim for 300-800 words.",
       "Include a professional email address at the top of your resume.",
       "Include a phone number in your contact information.",
       "Include dates for your work experience and education (e.g., 'Jan 2020 - Present')."] :=
  analyze_fifty_words exText (by decide) (by decide) (by decide) (by decide) (by decide)
    (by decide) (by decide) (by decide) (by decide) (by decide)

theorem lookup_setKey_same (m : List (String × JVal)) (k : String) (v : JVal) :
    lookupKey (setKey m k v) k = some v := by
  induction m with
  | nil => simp [setKey, lookupKey]
  | cons p rest ih =>
    obtain ⟨k1, v1⟩ := p
    by_cases h : k1 = k
    · simp [setKey, lookupKey, beq_iff_eq, h]
    · simp [setKey, lookupKey, beq_iff_eq, h, ih]

theorem lookup_setKey_other (m : List (String × JVal)) (k k2 : String) (v : JVal)
    (h : k ≠ k2) :
    lookupKey (setKey m k v) k2 = lookupKey m k2 := by
  induction m with
  | nil => simp [setKey, lookupKey, beq_iff_eq, h]
  | cons p rest ih =>
    obtain ⟨k1, v1⟩ := p
    by_cases h1 : k1 = k
    · subst h1
      simp [setKey, lookupKey, beq_iff_eq, h]
    · simp [setKey, lookupKey, beq_iff_eq, h1, ih]

theorem intOk_jint {n : Int} (h0 : 0 ≤ n) (h1 : n ≤ 100) : intOk (.jint n) = true := by
  simp [intOk, isInt, h0, h1]

theorem intOk_overallOf (result : List (String × JVal)) :
    intOk (overallOf result) = true := by
  by_cases h : intOk (getD result "overall_score" (.jint 0)) = true
  · simpa [overallOf, h] using h
  · simp [overallOf, h]
    decide

theorem intOk_atsScoreOf (result : List (String × JVal)) :
    intOk (atsScoreOf result) = true := by
  by_cases h : intOk (getD result "ats_score" (.jint 75)) = true
  · simpa [atsScoreOf, h] using h
  · simp [atsScoreOf, h]
    decide

theorem sKeyOk_fixSection_self (o : JVal) (fs : List (String × JVal)) (k : String)
    (ho : intOk o = true) : sKeyOk (fixSection o fs k) k = true := by
  unfold fixSection
  cases hl : lookupKey fs k with
  | none => simp [sKeyOk, lookup_setKey_same, ho]
  | some v =>
    by_cases hv : intOk v = true
    · simp [sKeyOk, hv, hl]
    · simp [hv, sKeyOk, lookup_setKey_same, ho]

theorem sKeyOk_fixSection_pres (o : JVal) (fs : List (String × JVal)) (k k2 : String)
    (ho : intOk o = true) (h2 : sKeyOk fs k2 = true) :
    sKeyOk (fixSection o fs k) k2 = true := by
  by_cases hk : k2 = k
  · subst hk
    exact sKeyOk_fixSection_self o fs k2 ho
  · unfold fixSection
    cases hl : lookupKey fs k with
    | none => simpa [sKeyOk, lookup_setKey_other fs k k2 o (Ne.symm hk)] using h2
    | some v =>
      by_cases hv : intOk v = true
      · simpa [hv, sKeyOk] using h2
      · simpa [hv, sKeyOk, lookup_setKey_other fs k k2 o (Ne.symm hk)] using h2

theorem sectionOkB_after_fold (o : JVal) (fs0 : List (String × JVal))
    (ho : intOk o = true) :
    sectionOkB (requiredSections.foldl (fixSection o) fs0) = true := by
  have h1 := sKeyOk_fixSection_self o fs0 "skills" ho
  have h2 := sKeyOk_fixSection_pres o _ "experience" "skills" ho h1
  have h2a := sKeyOk_fixSection_self o (fixSection o fs0 "skills") "experience" ho
  have h3 := sKeyOk_fixSection_pres o _ "clarity" "skills" ho h2
  have h3a := sKeyOk_fixSection_pres o _ "clarity" "experience" ho h2a
  have h3b := sKeyOk_fixSection_self o (fixSection o (fixSection o fs0 "skills") "experience") "clarity" ho
  have h4 := sKeyOk_fixSection_pres o _ "keywords" "skills" ho h3
  have h4a := sKeyOk_fixSection_pres o _ "keywords" "experience" ho h3a
  have h4b := sKeyOk_fixSection_pres o _ "keywords" "clarity" ho h3b
  have h4c := sKeyOk_fixSection_self o
    (fixSection o (fixSection o (fixSection o fs0 "skills") "experience") "clarity") "keywords" ho
  simp [sectionOkB, requiredSections, List.foldl, List.all, h4, h4a, h4b, h4c]

theorem jobOf_valid (result : List (String × JVal)) (v : JVal)
    (h : jobOf result = some v) : intOk v = true := by
  unfold jobOf at h
  split at h
  · cases h
  · split_ifs at h with hv
    · injection h with h2
      subst h2
      exact hv

theorem mkOf_le (result : List (String × JVal)) (xs : List JVal)
    (h : mkOf result = some xs) : xs.length ≤ 10 := by
  unfold mkOf at h
  split at h
  · cases h
  · injection h with h2
    subst h2
    exact List.length_take_le _ _
  · cases h

theorem listOf_le (result : List (String × JVal)) (key : String) (n : Nat) :
    (listOf result key n).length ≤ n := by
  unfold listOf
  split
  · exact List.length_take_le _ _
  · simp

/-- wellFormedB holds of every dict the validator can return. -/
theorem vnBody_wellFormed (result : List (String × JVal)) (fs0 : List (String × JVal)) :
    wellFormedB (vnBody result fs0) = true := by
  have hov := intOk_overallOf result
  have hats := intOk_atsScoreOf result
  have hsec := sectionOkB_after_fold (overallOf result) fs0 hov
  have hst := listOf_le result "strengths" 5
  have hwk := listOf_le result "weaknesses" 5
  have hrc := listOf_le result "recommendations" 7
  unfold vnBody wellFormedB
  cases hj : jobOf result with
  | none =>
    cases hm : mkOf result with
    | none => simp [lookupKey, hov, hats, hsec, hst, hwk, hrc]
    | some xs =>
      have hx := mkOf_le result xs hm
      simp [lookupKey, hov, hats, hsec, hst, hwk, hrc, hx]
  | some v =>
    have hv := jobOf_valid result v hj
    cases hm : mkOf result with
    | none => simp [lookupKey, hov, hats, hsec, hst, hwk, hrc, hv]
    | some xs =>
      have hx := mkOf_le result xs hm
      simp [lookupKey, hov, hats, hsec, hst, hwk, hrc, hv, hx]

/-- C1 (amended): for every raw payload whose section_scores key is absent
or a mapping, and every CompatibilityReport, the merge step followed by
the Validator/Normalizer returns a well-formed Assessment and never
raises; without that proviso the section loop raises. -/
theorem validate_wellFormed (raw : List (String × JVal)) (rep : CompatReport)
    (h : lookupKey raw "section_scores" = none ∨
         ∃ fs, lookupKey raw "section_scores" = some (.jobj fs)) :
    ∃ d, validate raw rep = .ok d ∧ wellFormedB d = true := by
  have hpres : lookupKey (pyUpdate raw (atsDict rep)) "section_scores"
      = lookupKey raw "section_scores" := by
    simp only [pyUpdate, atsDict, List.foldl]
    rw [lookup_setKey_other _ _ _ _ (by decide),
        lookup_setKey_other _ _ _ _ (by decide),
        lookup_setKey_other _ _ _ _ (by decide)]
  obtain ⟨fs0, hfs⟩ : ∃ fs0,
      getD (pyUpdate raw (atsDict rep)) "section_scores" (.jobj []) = .jobj fs0 := by
    rcases h with h | ⟨fs, h⟩
    · exact ⟨[], by simp [getD, hpres, h]⟩
    · exact ⟨fs, by simp [getD, hpres, h]⟩
  refine ⟨vnBody (pyUpdate raw (atsDict rep)) fs0, ?_, vnBody_wellFormed _ fs0⟩
  simp [validate, validateNorm, hfs]

/-- C1 counterexample: a payload whose section_scores is the integer 5
makes the Validator/Normalizer raise (a TypeError at the membership test
of the section loop in the source), here for the concrete report of spec
scenario 3, so validate does not return an Assessment for every payload
shape. -/
theorem validate_raises_on_int_sections :
    validate [("section_scores", JVal.jint 5)] ⟨80, ["x"], ["y"]⟩
      = .error "TypeError: section_scores is not a mapping" := rfl

/-- Witness for validate_wellFormed at the payload of spec scenario 3. -/
theorem validate_wellFormed_witness :
    ∃ d, validate [("overall_score", JVal.jstr "high")] ⟨80, ["x"], ["y"]⟩ = .ok d
      ∧ wellFormedB d = true :=
  validate_wellFormed _ _ (Or.inl rfl)

/-- C2: whenever the merge-and-validate step returns an Assessment for a
Rule Engine report, the ats_score, ats_issues and ats_recommendations of
that Assessment equal the report fields, whatever the raw payload
contained under those keys. -/
theorem validate_ats_override (raw : List (String × JVal)) (text : String)
    (d : List (String × JVal))
    (h : validate raw (analyze text) = .ok d) :
    lookupKey d "ats_score" = some (.jint (analyze text).ats_score) ∧
    lookupKey d "ats_issues" = some (.jlist ((analyze text).ats_issues.map .jstr)) ∧
    lookupKey d "ats_recommendations"
      = some (.jlist ((analyze text).ats_recommendations.map .jstr)) := by
  set rep := analyze text with hrep
  set merged := pyUpdate raw (atsDict rep) with hmg
  have hm3 : merged = setKey (setKey (setKey raw "ats_score" (.jint rep.ats_score))
      "ats_issues" (.jlist (rep.ats_issues.map .jstr)))
      "ats_recommendations" (.jlist (rep.ats_recommendations.map .jstr)) := by
    simp [hmg, pyUpdate, atsDict, List.foldl]
  have h1 : lookupKey merged "ats_recommendations"
      = some (.jlist (rep.ats_recommendations.map .jstr)) := by
    rw [hm3]
    exact lookup_setKey_same _ _ _
  have h2 : lookupKey merged "ats_issues" = some (.jlist (rep.ats_issues.map .jstr)) := by
    rw [hm3, lookup_setKey_other _ _ _ _ (by decide)]
    exact lookup_setKey_same _ _ _
  have h3 : lookupKey merged "ats_score" = some (.jint rep.ats_score) := by
    rw [hm3, lookup_setKey_other _ _ _ _ (by decide),
        lookup_setKey_other _ _ _ _ (by decide)]
    exact lookup_setKey_same _ _ _
  have hb := analyze_score_bounds text
  rw [← hrep] at hb
  have hsc : atsScoreOf merged = .jint rep.ats_score := by
    simp [atsScoreOf, getD, h3, intOk_jint hb.1 hb.2]
  have hIss : rawListOf merged "ats_issues" = rep.ats_issues.map .jstr := by
    simp [rawListOf, getD, h2]
  have hRec : rawListOf merged "ats_recommendations" = rep.ats_recommendations.map .jstr := by
    simp [rawListOf, getD, h1]
  unfold validate validateNorm at h
  rw [← hmg] at h
  split at h
  · injection h with hd
    subst hd
    refine ⟨?_, ?_, ?_⟩ <;> simp [vnBody, lookupKey, hsc, hIss, hRec]
  · cases h

set_option maxRecDepth 100000 in
/-- Witness for validate_ats_override at concrete inputs. -/
theorem validate_ats_override_witness :
    lookupKey dGood "ats_score" = some (.jint (analyze goodText).ats_score) ∧
    lookupKey dGood "ats_issues" = some (.jlist ((analyze goodText).ats_issues.map .jstr)) ∧
    lookupKey dGood "ats_recommendations"
      = some (.jlist ((analyze goodText).ats_recommendations.map .jstr)) :=
  validate_ats_override [] goodText dGood (by rfl)

/-- C5: on a parse failure score_resume returns (never raises) the fallback
Assessment: overall_score is 60 plus the two heuristic bonuses (hence in
the claimed set), and all four section scores equal it. -/
theorem scoreResume_fallback (text content : String) (jparse : String → Option JVal)
    (h : jparse (stripFences content) = none) :
    ∃ d, scoreResume text jparse (.ok content) = .ok d ∧
      lookupKey d "overall_score" = some (.jint (fallbackBase text)) ∧
      lookupKey d "section_scores" = some (.jobj
        [("skills", .jint (fallbackBase text)), ("experience", .jint (fallbackBase text)),
         ("clarity", .jint (fallbackBase text)), ("keywords", .jint (fallbackBase text))]) ∧
      fallbackBase text
        = 60 + (if wordCount text > 200 then 10 else 0) + (if anyDigit text then 10 else 0) ∧
      (fallbackBase text = 60 ∨ fallbackBase text = 70 ∨
        fallbackBase text = 75 ∨ fallbackBase text = 80) := by
  refine ⟨pyUpdate (createFallbackResponse text) (atsDict (analyze text)), ?_, ?_, ?_, rfl, ?_⟩
  · simp [scoreResume, h]
  · rw [show pyUpdate (createFallbackResponse text) (atsDict (analyze text))
        = setKey (setKey (setKey (createFallbackResponse text)
            "ats_score" (.jint (analyze text).ats_score))
            "ats_issues" (.jlist ((analyze text).ats_issues.map .jstr)))
            "ats_recommendations" (.jlist ((analyze text).ats_recommendations.map .jstr))
        from by simp [pyUpdate, atsDict, List.foldl]]
    rw [lookup_setKey_other _ _ _ _ (by decide), lookup_setKey_other _ _ _ _ (by decide),
        lookup_setKey_other _ _ _ _ (by decide)]
    simp [createFallbackResponse, lookupKey]
  · rw [show pyUpdate (createFallbackResponse text) (atsDict (analyze text))
        = setKey (setKey (setKey (createFallbackResponse text)
            "ats_score" (.jint (analyze text).ats_score))
            "ats_issues" (.jlist ((analyze text).ats_issues.map .jstr)))
            "ats_recommendations" (.jlist ((analyze text).ats_recommendations.map .jstr))
        from by simp [pyUpdate, atsDict, List.foldl]]
    rw [lookup_setKey_other _ _ _ _ (by decide), lookup_setKey_other _ _ _ _ (by decide),
        lookup_setKey_other _ _ _ _ (by decide)]
    simp [createFallbackResponse, lookupKey]
  · unfold fallbackBase
    split_ifs <;> norm_num

/-- Witness for scoreResume_fallback with an unparsable empty reply. -/
theorem scoreResume_fallback_witness :
    ∃ d, scoreResume "" (fun _ => none) (.ok "") = .ok d ∧
      lookupKey d "overall_score" = some (.jint (fallbackBase "")) ∧
      lookupKey d "section_scores" = some (.jobj
        [("skills", .jint (fallbackBase "")), ("experience", .jint (fallbackBase "")),
         ("clarity", .jint (fallbackBase "")), ("keywords", .jint (fallbackBase ""))]) ∧
      fallbackBase ""
        = 60 + (if wordCount "" > 200 then 10 else 0) + (if anyDigit "" then 10 else 0) ∧
      (fallbackBase "" = 60 ∨ fallbackBase "" = 70 ∨
        fallbackBase "" = 75 ∨ fallbackBase "" = 80) :=
  scoreResume_fallback "" "" (fun _ => none) rfl

/-- C6: the error-handling asymmetry of the two orchestration paths: a
failing external call makes score_resume propagate the error as a hard
failure, while chat and chat_stream convert any turn error into the fixed
apologetic reply (a single chunk in the streaming variant). -/
theorem transport_error_asymmetry (e text : String) (jparse : String → Option JVal)
    (m : List (String × ChatSession)) (sid msg : String)
    (analysis : List (String × JVal)) :
    scoreResume text jparse (.error e) = .error e ∧
    (chatResult m sid msg analysis (.error e)).1 = apologyText ∧
    (chatStream m sid msg analysis (.error e)).1 = [apologyText.data] := by
  refine ⟨rfl, ?_, ?_⟩
  · unfold chatResult
    rcases hb : buildResumeContext (getOrCreateSession m sid analysis).1.analysis with e2 | ctx <;>
      simp [hb]
  · unfold chatStream
    rcases hb : buildResumeContext (getOrCreateSession m sid analysis).1.analysis with e2 | ctx <;>
      simp [hb]

theorem lookupSession_append_self (m : List (String × ChatSession)) (sid : String)
    (s : ChatSession) (h : lookupSession m sid = none) :
    lookupSession (m ++ [(sid, s)]) sid = some s := by
  induction m with
  | nil => simp [lookupSession]
  | cons p rest ih =>
    obtain ⟨k, t⟩ := p
    by_cases hk : k = sid
    · simp [lookupSession, beq_iff_eq, hk] at h
    · simp only [lookupSession, beq_iff_eq, hk, if_false, List.cons_append] at h ⊢
      exact ih h

/-- C8: a second getOrCreate with the same id and a different assessment
returns the stored session entirely unchanged and changes no state: the
snapshot stays the first assessment and the history is untouched. -/
theorem getOrCreate_keeps_first (m : List (String × ChatSession)) (sid : String)
    (a1 a2 : List (String × JVal)) (h : lookupSession m sid = none) :
    (getOrCreateSession (getOrCreateSession m sid a1).2 sid a2).1
      = (getOrCreateSession m sid a1).1 ∧
    (getOrCreateSession (getOrCreateSession m sid a1).2 sid a2).2
      = (getOrCreateSession m sid a1).2 ∧
    (getOrCreateSession (getOrCreateSession m sid a1).2 sid a2).1.analysis = a1 ∧
    (getOrCreateSession (getOrCreateSession m sid a1).2 sid a2).1.history
      = (getOrCreateSession m sid a1).1.history := by
  have h2 : lookupSession (m ++ [(sid, ⟨[], a1⟩)]) sid = some ⟨[], a1⟩ :=
    lookupSession_append_self m sid _ h
  simp [getOrCreateSession, h, h2]

/-- Witness for getOrCreate_keeps_first on a fresh map and two distinct
assessments. -/
theorem getOrCreate_keeps_first_witness :
    (getOrCreateSession (getOrCreateSession [] "a" [("overall_score", .jint 1)]).2
        "a" []).1
      = (getOrCreateSession [] "a" [("overall_score", .jint 1)]).1 ∧
    (getOrCreateSession (getOrCreateSession [] "a" [("overall_score", .jint 1)]).2
        "a" []).2
      = (getOrCreateSession [] "a" [("overall_score", .jint 1)]).2 ∧
    (getOrCreateSession (getOrCreateSession [] "a" [("overall_score", .jint 1)]).2
        "a" []).1.analysis = [("overall_score", .jint 1)] ∧
    (getOrCreateSession (getOrCreateSession [] "a" [("overall_score", .jint 1)]).2
        "a" []).1.history
      = (getOrCreateSession [] "a" [("overall_score", .jint 1)]).1.history :=
  getOrCreate_keeps_first [] "a" [("overall_score", .jint 1)] [] rfl

theorem lookupSession_none_of_not_mem (m : List (String × ChatSession)) (sid : String)
    (h : sid ∉ m.map Prod.fst) : lookupSession m sid = none := by
  induction m with
  | nil => rfl
  | cons p rest ih =>
    obtain ⟨k, t⟩ := p
    simp only [List.map_cons, List.mem_cons] at h
    push_neg at h
    simp [lookupSession, beq_iff_eq, Ne.symm h.1, ih h.2]

theorem lookup_eraseSession_self (m : List (String × ChatSession)) (sid : String)
    (hnd : (m.map Prod.fst).Nodup) :
    lookupSession (eraseSession m sid) sid = none := by
  induction m with
  | nil => rfl
  | cons p rest ih =>
    obtain ⟨k, t⟩ := p
    simp only [List.map_cons, List.nodup_cons] at hnd
    by_cases hk : k = sid
    · subst hk
      simpa [eraseSession] using lookupSession_none_of_not_mem rest k hnd.1
    · simp [eraseSession, lookupSession, beq_iff_eq, hk, ih hnd.2]

theorem lookup_eraseSession_other (m : List (String × ChatSession)) (sid sid2 : String)
    (h : sid2 ≠ sid) :
    lookupSession (eraseSession m sid) sid2 = lookupSession m sid2 := by
  induction m with
  | nil => rfl
  | cons p rest ih =>
    obtain ⟨k, t⟩ := p
    by_cases hk : k = sid
    · subst hk
      simp [eraseSession, lookupSession, beq_iff_eq, Ne.symm h]
    · simp [eraseSession, lookupSession, beq_iff_eq, hk, ih]

/-- C10: clear_session never raises; an unknown id leaves the session map
unchanged, a known id removes exactly its entry and leaves every other
session unchanged.  (The hypothesis that keys are not duplicated is the
Python dict invariant of the store.) -/
theorem clearSession_frame (m : List (String × ChatSession)) (sid : String)
    (hnd : (m.map Prod.fst).Nodup) :
    (lookupSession m sid = none → clearSession m sid = m) ∧
    lookupSession (clearSession m sid) sid = none ∧
    ∀ sid2, sid2 ≠ sid →
      lookupSession (clearSession m sid) sid2 = lookupSession m sid2 := by
  refine ⟨fun h => by simp [clearSession, h], ?_, ?_⟩
  · cases hl : lookupSession m sid with
    | none => simpa [clearSession, hl] using hl
    | some s => simpa [clearSession, hl] using lookup_eraseSession_self m sid hnd
  · intro sid2 h2
    cases hl : lookupSession m sid with
    | none => simp [clearSession, hl]
    | some s => simpa [clearSession, hl] using lookup_eraseSession_other m sid sid2 h2

/-- Witness for clearSession_frame: clearing "a" removes it and leaves "b". -/
theorem clearSession_frame_witness :
    lookupSession (clearSession mapW "a") "a" = none ∧
    lookupSession (clearSession mapW "a") "b" = lookupSession mapW "b" :=
  ⟨(clearSession_frame mapW "a" (by decide)).2.1,
   (clearSession_frame mapW "a" (by decide)).2.2 "b" (by decide)⟩

theorem joinAll_grab (l : List Char) :
    (∀ acc, joinAll (grabTok acc l) = acc.reverse ++ l) ∧
    (∀ acc, joinAll (grabSp acc l) = acc.reverse ++ l) := by
  induction l with
  | nil => simp [grabTok, grabSp, joinAll]
  | cons c rest ih =>
    constructor <;> intro acc <;> by_cases h : pySpace c <;>
      simp [grabTok, grabSp, h, joinAll, ih.1, ih.2]

theorem joinAll_pyTokens (l : List Char) :
    joinAll (pyTokens l) = l.dropWhile pySpace := by
  induction l with
  | nil => simp [pyTokens, joinAll]
  | cons c rest ih =>
    by_cases h : pySpace c <;>
      simp [pyTokens, h, List.dropWhile, ih, (joinAll_grab rest).1, joinAll]

/-- C7 (amended): for identical session state, message and external reply,
concatenating the chunks chat_stream yields equals the text chat returns
with its leading whitespace removed — character-for-character equality
holds exactly when the reply does not begin with whitespace, and on the
error path both produce the apology verbatim. -/
theorem chatStream_rebuilds_chat (m : List (String × ChatSession)) (sid msg : String)
    (analysis : List (String × JVal)) (llm : Except String String) :
    joinAll (chatStream m sid msg analysis llm).1
      = ((chatResult m sid msg analysis llm).1).data.dropWhile pySpace := by
  unfold chatStream chatResult
  rcases hb : buildResumeContext (getOrCreateSession m sid analysis).1.analysis with e | ctx
  · simp only [hb]
    decide
  · rcases llm with e2 | reply
    · simp only [hb]
      decide
    · simp only [hb, joinAll_pyTokens]

/-- C7 counterexample: with an external reply that begins with a space the
stream chunks reassemble to a strictly shorter text than the chat reply. -/
theorem chatStream_drops_leading_space :
    ¬(⟨joinAll (chatStream [] "s" "m" [] (.ok " hi")).1⟩ : String)
      = (chatResult [] "s" "m" [] (.ok " hi")).1 := by
  decide

theorem overLine_is_over (a : List (String × JVal)) :
    begins (overLine a) overNeedle = true := rfl

theorem atsLine_is_ats (a : List (String × JVal)) :
    begins (atsLine a) atsNeedle = true := rfl

theorem overLine_not_job (a : List (String × JVal)) :
    begins (overLine a) jobNeedle = false := rfl

theorem atsLine_not_job (a : List (String × JVal)) :
    begins (atsLine a) jobNeedle = false := rfl

theorem secChunk_lines (a : List (String × JVal)) (fs : List (String × JVal))
    (h : lookupKey a "section_scores" = some (.jobj fs)) :
    ∃ c, secChunk a = .ok c ∧
      ∀ p ∈ c, begins p jobNeedle = false ∧ begins p overNeedle = false ∧
        begins p atsNeedle = false := by
  refine ⟨"\nSection Scores:".data ::
      fs.map (fun p => "  - ".data ++ pyTitle p.1 ++ ": ".data ++ (pyStr p.2).data
        ++ "/100".data), by simp [secChunk, h], ?_⟩
  intro p hp
  rcases List.mem_cons.mp hp with rfl | hp2
  · exact ⟨rfl, rfl, rfl⟩
  · obtain ⟨q, hq, rfl⟩ := List.mem_map.mp hp2
    exact ⟨rfl, rfl, rfl⟩

theorem listChunk_lines (a : List (String × JVal)) (key label : String) (l : List JVal)
    (h : lookupKey a key = some (.jlist l)) :
    ∃ c, listChunk a key label = .ok c ∧
      ∀ p ∈ c, begins p jobNeedle = false ∧ begins p overNeedle = false ∧
        begins p atsNeedle = false := by
  have hv : getD a key .jnull = .jlist l := by simp [getD, h]
  by_cases he : l.isEmpty
  · exact ⟨[], by simp [listChunk, hv, pyTruthy, he], by simp⟩
  · refine ⟨("\n".data ++ label.data ++ " (".data ++ (toString l.length).data ++ "):".data)
      :: (l.take 3).map (fun it => "  - ".data ++ (pyStr it).data), ?_, ?_⟩
    · simp [listChunk, hv, pyTruthy, he, pyLen, pySlice3]
    · intro p hp
      rcases List.mem_cons.mp hp with rfl | hp2
      · exact ⟨rfl, rfl, rfl⟩
      · obtain ⟨q, hq, rfl⟩ := List.mem_map.mp hp2
        exact ⟨rfl, rfl, rfl⟩

/-- C9 (amended): for every well-formed assessment snapshot the context
builder succeeds, the overall and ATS score lines are always rendered,
and the job-match line is rendered iff the snapshot's job_match_score is
truthy — presence of the key alone is not enough, since a stored score of
0 (or any falsy value) suppresses the line. -/
theorem buildContext_lines (d : List (String × JVal)) (h : wellFormedB d = true) :
    ∃ parts, buildContextParts d = .ok parts ∧
      (∃ p ∈ parts, begins p overNeedle = true) ∧
      (∃ p ∈ parts, begins p atsNeedle = true) ∧
      ((∃ p ∈ parts, begins p jobNeedle = true)
        ↔ pyTruthy (getD d "job_match_score" .jnull) = true) := by
  simp only [wellFormedB, Bool.and_eq_true] at h
  obtain ⟨⟨⟨⟨⟨⟨⟨⟨⟨hov, hsec⟩, hst⟩, hwk⟩, hrc⟩, hats⟩, hai⟩, har⟩, hjob⟩, hmk⟩ := h
  have hsec2 : ∃ fs, lookupKey d "section_scores" = some (.jobj fs) := by
    revert hsec
    cases lookupKey d "section_scores" with
    | none => simp
    | some v => cases v <;> simp
  have hst2 : ∃ l, lookupKey d "strengths" = some (.jlist l) := by
    revert hst
    cases lookupKey d "strengths" with
    | none => simp
    | some v => cases v <;> simp
  have hwk2 : ∃ l, lookupKey d "weaknesses" = some (.jlist l) := by
    revert hwk
    cases lookupKey d "weaknesses" with
    | none => simp
    | some v => cases v <;> simp
  have hrc2 : ∃ l, lookupKey d "recommendations" = some (.jlist l) := by
    revert hrc
    cases lookupKey d "recommendations" with
    | none => simp
    | some v => cases v <;> simp
  obtain ⟨fs, hfs⟩ := hsec2
  obtain ⟨l1, hl1⟩ := hst2
  obtain ⟨l2, hl2⟩ := hwk2
  obtain ⟨l3, hl3⟩ := hrc2
  obtain ⟨cs, hcs, hcsP⟩ := secChunk_lines d fs hfs
  obtain ⟨c1, hc1, hc1P⟩ := listChunk_lines d "strengths" "Strengths" l1 hl1
  obtain ⟨c2, hc2, hc2P⟩ := listChunk_lines d "weaknesses" "Weaknesses" l2 hl2
  obtain ⟨c3, hc3, hc3P⟩ := listChunk_lines d "recommendations" "Recommendations" l3 hl3
  have hjm : ∀ p, p ∈ jobChunk d → pyTruthy (getD d "job_match_score" .jnull) = true := by
    intro p hp
    by_cases ht : pyTruthy (getD d "job_match_score" .jnull) = true
    · exact ht
    · simp [jobChunk, ht] at hp
  refine ⟨[overLine d, atsLine d] ++ jobChunk d ++ cs ++ c1 ++ c2 ++ c3, ?_, ?_, ?_, ?_⟩
  · simp [buildContextParts, hcs, hc1, hc2, hc3, Bind.bind, Except.bind, pure, Except.pure]
  · exact ⟨overLine d, by simp, overLine_is_over d⟩
  · exact ⟨atsLine d, by simp [atsLine_is_ats], atsLine_is_ats d⟩
  · constructor
    · rintro ⟨p, hp, hb⟩
      simp only [List.mem_append, List.mem_cons, List.not_mem_nil, or_false,
        or_assoc] at hp
      rcases hp with rfl | rfl | hp | hp | hp | hp | hp
      · rw [overLine_not_job] at hb
        cases hb
      · rw [atsLine_not_job] at hb
        cases hb
      · exact hjm p hp
      · rw [(hcsP p hp).1] at hb
        cases hb
      · rw [(hc1P p hp).1] at hb
        cases hb
      · rw [(hc2P p hp).1] at hb
        cases hb
      · rw [(hc3P p hp).1] at hb
        cases hb
    · intro ht
      refine ⟨"Job Match Score: ".data
        ++ (pyStr (getD d "job_match_score" .jnull)).data ++ "%".data, ?_, rfl⟩
      simp [jobChunk, ht]

/-- C9 counterexample: snapshotW is a well-formed assessment that contains
a job_match_score (the in-range score 0), yet its rendered context has no
job-match line, refuting the claimed iff with key presence. -/
theorem job_score_zero_not_rendered :
    lookupKey snapshotW "job_match_score" = some (.jint 0) ∧
    wellFormedB snapshotW = true ∧
    buildContextParts snapshotW = .ok
      ["Overall Score: 80/100".data, "ATS Score: 90/100".data,
       "\nSection Scores:".data, "  - Skills: 70/100".data, "  - Experience: 75/100".data,
       "  - Clarity: 60/100".data, "  - Keywords: 65/100".data,
       "\nStrengths (1):".data, "  - clear layout".data] ∧
    ¬∃ p ∈ ["Overall Score: 80/100".data, "ATS Score: 90/100".data,
       "\nSection Scores:".data, "  - Skills: 70/100".data, "  - Experience: 75/100".data,
       "  - Clarity: 60/100".data, "  - Keywords: 65/100".data,
       "\nStrengths (1):".data, "  - clear layout".data], begins p jobNeedle = true := by
  refine ⟨rfl, rfl, rfl, ?_⟩
  decide

/-- Witness for buildContext_lines at snapshotW. -/
theorem buildContext_lines_witness :
    ∃ parts, buildContextParts snapshotW = .ok parts ∧
      (∃ p ∈ parts, begins p overNeedle = true) ∧
      (∃ p ∈ parts, begins p atsNeedle = true) ∧
      ((∃ p ∈ parts, begins p jobNeedle = true)
        ↔ pyTruthy (getD snapshotW "job_match_score" .jnull) = true) :=
  buildContext_lines snapshotW rfl

end JobMatch
